import Mathlib

/-!
Verification of `send_wecom.py` (skills/wecom-notify/scripts/send_wecom.py),
a command-line dispatcher that loads credentials from a local JSON config,
exchanges them for an access token, optionally uploads a media attachment,
sends one message (text / image / file) and prints a one-line JSON result.

The script is embedded shallowly:
* JSON documents (the parsed config file and the parsed vendor responses)
  are values of an inductive `Json` type; Python `dict.get` / subscripting /
  truthiness / `int()` conversion are modelled by executable functions that
  follow CPython semantics on those values.
* Each network request the script can issue is a `NetCall`; the vendor
  responses are supplied by an `Env` record (one response per endpoint,
  each endpoint is called at most once per run).  `main_run` returns the
  list of calls actually issued, in order, together with the `Outcome`.
* `sys.exit msg` (nonzero exit printing an error line) is `Outcome.exit`,
  an uncaught Python exception is `Outcome.exc`, `parser.error` is
  `Outcome.usage`, and a successful run printing the single JSON result
  line `j` and exiting 0 is `Outcome.success j`.
-/

namespace WecomNotify

/-- A parsed JSON document (as produced by Python `json.loads`).
Arrays are not needed by any value the script manipulates structurally,
but are included for completeness of the config/response model. -/
inductive Json where
  | null : Json
  | bool : Bool → Json
  | num : Int → Json
  | str : String → Json
  | obj : List (String × Json) → Json

/-- Association lookup in a JSON object field list (Python dict keys are
unique; first match). -/
def assoc : List (String × Json) → String → Option Json
  | [], _ => none
  | (k, v) :: rest, key => if k = key then some v else assoc rest key

/-- Field lookup: `some v` when the value is an object containing the key. -/
def Json.lookup : Json → String → Option Json
  | .obj fields, key => assoc fields key
  | _, _ => none

/-- Python `d.get(key, default)`: raises `AttributeError` when the receiver
is not a dict. -/
def Json.pyGet : Json → String → Json → Except String Json
  | .obj fields, key, dflt => .ok ((assoc fields key).getD dflt)
  | _, _, _ => .error "AttributeError: get on non-dict"

/-- Python `d[key]`: `KeyError` on a missing key, `TypeError` on a
non-dict receiver. -/
def Json.pySubscript : Json → String → Except String Json
  | .obj fields, key =>
    match assoc fields key with
    | some v => .ok v
    | none => .error ("KeyError: " ++ key)
  | _, _ => .error "TypeError: subscript on non-dict"

/-- Total variant of `d.get(key, default)` (used only where the receiver is
already known to be a dict). -/
def Json.getD (j : Json) (key : String) (dflt : Json) : Json :=
  (j.lookup key).getD dflt

/-- Python truthiness of a JSON value (`bool(x)`). -/
def Json.truthy : Json → Bool
  | .null => false
  | .bool b => b
  | .num n => n != 0
  | .str s => !(s == "")
  | .obj fields => !fields.isEmpty

/-- Python `x == n` for an int literal `n`: numbers compare by value and
`True`/`False` equal `1`/`0`; every other JSON value is unequal. -/
def pyEqInt (j : Json) (n : Int) : Bool :=
  match j with
  | .num m => m == n
  | .bool b => (if b then (1 : Int) else 0) == n
  | _ => false

mutual
/-- Python `repr` of a parsed JSON value, as interpolated by the script's
f-strings (`f"Error ...: {data}"`): `None`/`True`/`False`, single-quoted
strings, `{'k': v, ...}` dicts. -/
def Json.pyRepr : Json → String
  | .null => "None"
  | .bool true => "True"
  | .bool false => "False"
  | .num n => toString n
  | .str s => "\x27" ++ s ++ "\x27"
  | .obj fields => "\x7b" ++ pyReprFields fields ++ "\x7d"

/-- Comma-separated `'key': value` renderings of a dict's entries. -/
def pyReprFields : List (String × Json) → String
  | [] => ""
  | [(k, v)] => "\x27" ++ k ++ "\x27: " ++ v.pyRepr
  | (k, v) :: rest => "\x27" ++ k ++ "\x27: " ++ v.pyRepr ++ ", " ++ pyReprFields rest
end

/-- Decimal value of an ASCII digit character. -/
def digitVal (c : Char) : Nat := c.toNat - 48

/-- Digits of a Python int literal after the first digit: `digit (_? digit)*`
(single underscores allowed between digits only). -/
def pyDigitsGo : List Char → Nat → Option Nat
  | [], acc => some acc
  | c :: rest, acc =>
    if c.isDigit then pyDigitsGo rest (10 * acc + digitVal c)
    else if c = '_' then
      match rest with
      | [] => none
      | c2 :: rest2 =>
        if c2.isDigit then pyDigitsGo rest2 (10 * acc + digitVal c2) else none
    else none

/-- A nonempty all-digit (with interior underscores) run, starting with a
digit. -/
def startDigits : List Char → Option Nat
  | [] => none
  | c :: rest => if c.isDigit then pyDigitsGo rest (digitVal c) else none

/-- Drop leading ASCII whitespace. -/
def dropWs : List Char → List Char
  | [] => []
  | c :: rest =>
    if c = ' ' ∨ c = '\t' ∨ c = '\n' ∨ c = '\r' ∨ c = '\x0b' ∨ c = '\x0c' then dropWs rest
    else c :: rest

/-- Strip whitespace from both ends. -/
def trimChars (l : List Char) : List Char :=
  (dropWs (dropWs l.reverse).reverse)

/-- Python `int(s)` on a string: strip whitespace, optional sign, decimal
digits with optional single interior underscores; `none` when the literal
is invalid (CPython raises `ValueError`). -/
def parsePyInt (s : String) : Option Int :=
  match trimChars s.data with
  | '+' :: rest => (startDigits rest).map (fun n => (n : Int))
  | '-' :: rest => (startDigits rest).map (fun n => -(n : Int))
  | l => (startDigits l).map (fun n => (n : Int))

/-- Python `int(x)` on a parsed JSON value: ints pass through, bools become
`0`/`1`, strings are parsed as decimal literals (`ValueError` otherwise),
and every other value raises `TypeError`. -/
def pyInt : Json → Except String Int
  | .num n => .ok n
  | .bool b => .ok (if b then 1 else 0)
  | .str s =>
    match parsePyInt s with
    | some n => .ok n
    | none => .error ("ValueError: invalid literal for int() with base 10: " ++ s)
  | _ => .error "TypeError: int() argument"

/-- The outcome of a Python operation that may terminate the process:
`exit` is `sys.exit(msg)` (nonzero status, `msg` printed), `exc` is an
uncaught exception. -/
inductive PyResult (α : Type) where
  | ok : α → PyResult α
  | exit : String → PyResult α
  | exc : String → PyResult α

/-- One outbound HTTP request of the script, with the data that determines
it: `token` is the gettoken call (credentials in the query string),
`upload` is the media/upload multipart POST (access token, local file path,
media type), `send` is the message/send JSON POST (access token, payload). -/
inductive NetCall where
  | token : Json → Json → NetCall
  | upload : Json → String → String → NetCall
  | send : Json → Json → NetCall

/-- `env.vars` extraction of `load_config`:
`data.get("env", {}).get("vars", {})`. -/
def envVars (data : Json) : Except String Json :=
  match data.pyGet "env" (.obj []) with
  | .error e => .error e
  | .ok outer => outer.pyGet "vars" (.obj [])

/-- `load_config()`: reads the parsed config file (`none` when
`~/.openclaw/openclaw.json` does not exist), extracts `env.vars`, exits
when any of the three credentials is missing/falsy, and converts the agent
id with `int(...)`.  Returns `(corp_id, corp_secret, agent_id, proxy)`. -/
def load_config (configFile : Option Json) : PyResult (Json × Json × Int × Json) :=
  match configFile with
  | none => .exit "Error: ~/.openclaw/openclaw.json not found"
  | some data =>
    match envVars data with
    | .error e => .exc e
    | .ok env =>
      match env.pyGet "WECOM_CORP_ID" .null with
      | .error e => .exc e
      | .ok corp_id =>
        match env.pyGet "WECOM_CORP_SECRET" .null with
        | .error e => .exc e
        | .ok corp_secret =>
          match env.pyGet "WECOM_AGENT_ID" .null with
          | .error e => .exc e
          | .ok agent_id =>
            match env.pyGet "WECOM_PROXY" (.str "") with
            | .error e => .exc e
            | .ok proxy =>
              if !(corp_id.truthy && corp_secret.truthy && agent_id.truthy) then
                .exit "Error: Missing WECOM_CORP_ID/CORP_SECRET/AGENT_ID in config"
              else
                match pyInt agent_id with
                | .error e => .exc e
                | .ok n => .ok (corp_id, corp_secret, n, proxy)

/-- The response handling of `get_access_token`: abort on a nonzero
`errcode` (default 0) surfacing the raw response, else return
`data["access_token"]`. -/
def token_body (resp : Json) : PyResult Json :=
  match resp.pyGet "errcode" (.num 0) with
  | .error e => .exc e
  | .ok ec =>
    if !(pyEqInt ec 0) then .exit ("Error getting token: " ++ resp.pyRepr)
    else
      match resp.pySubscript "access_token" with
      | .error e => .exc e
      | .ok tok => .ok tok

/-- `get_access_token(corp_id, corp_secret, opener)` given the parsed JSON
body `resp` of the gettoken response: one network call, then the response
handling of `token_body`. -/
def get_access_token (corp_id corp_secret resp : Json) : List NetCall × PyResult Json :=
  ([.token corp_id corp_secret], token_body resp)

/-- The response handling of `upload_media`: abort on a nonzero `errcode`
surfacing the raw response, else return `data["media_id"]`. -/
def upload_body (resp : Json) : PyResult Json :=
  match resp.pyGet "errcode" (.num 0) with
  | .error e => .exc e
  | .ok ec =>
    if !(pyEqInt ec 0) then .exit ("Error uploading media: " ++ resp.pyRepr)
    else
      match resp.pySubscript "media_id" with
      | .error e => .exc e
      | .ok mid => .ok mid

/-- `upload_media(access_token, file_path, media_type, opener)` given the
filesystem predicate and the parsed upload response: exits *before* the
network call when the path does not exist; otherwise one upload call, then
the response handling of `upload_body`. -/
def upload_media (fileExists : String → Bool) (access_token : Json)
    (file_path media_type : String) (resp : Json) : List NetCall × PyResult Json :=
  if !(fileExists file_path) then
    ([], .exit ("Error: File not found: " ++ file_path))
  else
    ([.upload access_token file_path media_type], upload_body resp)

/-- The JSON payload built by `send_text`. -/
def send_text_payload (agent_id : Int) (to_user text : String) : Json :=
  .obj [("touser", .str to_user), ("msgtype", .str "text"),
        ("agentid", .num agent_id), ("text", .obj [("content", .str text)]),
        ("safe", .num 0)]

/-- The JSON payload built by `send_image`. -/
def send_image_payload (agent_id : Int) (to_user : String) (media_id : Json) : Json :=
  .obj [("touser", .str to_user), ("msgtype", .str "image"),
        ("agentid", .num agent_id), ("image", .obj [("media_id", media_id)]),
        ("safe", .num 0)]

/-- The JSON payload built by `send_file`. -/
def send_file_payload (agent_id : Int) (to_user : String) (media_id : Json) : Json :=
  .obj [("touser", .str to_user), ("msgtype", .str "file"),
        ("agentid", .num agent_id), ("file", .obj [("media_id", media_id)]),
        ("safe", .num 0)]

/-- The response handling shared by `send_text`/`send_image`/`send_file`
(the error line differs by message kind): abort on a nonzero `errcode`
surfacing the raw response, else return the parsed response itself. -/
def send_body (emsg : String) (resp : Json) : PyResult Json :=
  match resp.pyGet "errcode" (.num 0) with
  | .error e => .exc e
  | .ok ec =>
    if !(pyEqInt ec 0) then .exit (emsg ++ resp.pyRepr)
    else .ok resp

/-- `send_text(access_token, agent_id, to_user, text, opener)` given the
parsed send response: one send call carrying the text payload, then the
response handling of `send_body`. -/
def send_text (access_token : Json) (agent_id : Int) (to_user text : String)
    (resp : Json) : List NetCall × PyResult Json :=
  ([.send access_token (send_text_payload agent_id to_user text)],
    send_body "Error sending message: " resp)

/-- `send_image(access_token, agent_id, to_user, media_id, opener)`. -/
def send_image (access_token : Json) (agent_id : Int) (to_user : String)
    (media_id : Json) (resp : Json) : List NetCall × PyResult Json :=
  ([.send access_token (send_image_payload agent_id to_user media_id)],
    send_body "Error sending image: " resp)

/-- `send_file(access_token, agent_id, to_user, media_id, opener)`. -/
def send_file (access_token : Json) (agent_id : Int) (to_user : String)
    (media_id : Json) (resp : Json) : List NetCall × PyResult Json :=
  ([.send access_token (send_file_payload agent_id to_user media_id)],
    send_body "Error sending file: " resp)

/-- The external world of one invocation: the parsed config file (`none` if
absent), the filesystem, and the parsed JSON body the vendor would return
for each of the three endpoints (each is called at most once per run). -/
structure Env where
  configFile : Option Json
  fileExists : String → Bool
  tokenResp : Json
  uploadResp : Json
  sendResp : Json

/-- Parsed command-line values, after argparse: `message` is the optional
positional argument, `to` the recipient (argparse has already applied the
default), `image`/`file` the optional flag values. -/
structure Args where
  message : Option String
  toUser : String
  image : Option String
  file : Option String

/-- Raw command line: `toOpt = none` means `--to` was not supplied. -/
structure CliArgs where
  message : Option String
  toOpt : Option String
  image : Option String
  file : Option String

/-- The fixed default recipient of the `--to` option. -/
def defaultTo : String := "LiXueHeng"

/-- argparse resolution: fill in the `--to` default. -/
def parse_args (c : CliArgs) : Args :=
  { message := c.message, toUser := c.toOpt.getD defaultTo, image := c.image, file := c.file }

/-- Python truthiness of an optional string argument (`None` and `""` are
falsy). -/
def truthyOptStr : Option String → Bool
  | none => false
  | some s => !(s == "")

/-- How one invocation terminates: `success line` is exit status 0 after
printing exactly the single JSON result `line`; `exit`, `exc` and `usage`
(argparse `parser.error`) all print an error message and exit nonzero. -/
inductive Outcome where
  | success : Json → Outcome
  | exit : String → Outcome
  | exc : String → Outcome
  | usage : String → Outcome

/-- The image branch of `main` (after the token was obtained). -/
def run_image (e : Env) (args : Args) (agent_id : Int) (tok : Json) :
    List NetCall × Outcome :=
  match upload_media e.fileExists tok (args.image.getD "") "image" e.uploadResp with
  | (uCalls, .exit m) => (uCalls, .exit m)
  | (uCalls, .exc m) => (uCalls, .exc m)
  | (uCalls, .ok media_id) =>
    match send_image tok agent_id args.toUser media_id e.sendResp with
    | (sCalls, .exit m) => (uCalls ++ sCalls, .exit m)
    | (sCalls, .exc m) => (uCalls ++ sCalls, .exc m)
    | (sCalls, .ok result) =>
      match result.pyGet "msgid" (.str "") with
      | .error m => (uCalls ++ sCalls, .exc m)
      | .ok msgid =>
        (uCalls ++ sCalls,
          .success (.obj [("ok", .bool true), ("type", .str "image"),
            ("to", .str args.toUser), ("media_id", media_id), ("msgid", msgid)]))

/-- The file branch of `main` (after the token was obtained). -/
def run_file (e : Env) (args : Args) (agent_id : Int) (tok : Json) :
    List NetCall × Outcome :=
  match upload_media e.fileExists tok (args.file.getD "") "file" e.uploadResp with
  | (uCalls, .exit m) => (uCalls, .exit m)
  | (uCalls, .exc m) => (uCalls, .exc m)
  | (uCalls, .ok media_id) =>
    match send_file tok agent_id args.toUser media_id e.sendResp with
    | (sCalls, .exit m) => (uCalls ++ sCalls, .exit m)
    | (sCalls, .exc m) => (uCalls ++ sCalls, .exc m)
    | (sCalls, .ok result) =>
      match result.pyGet "msgid" (.str "") with
      | .error m => (uCalls ++ sCalls, .exc m)
      | .ok msgid =>
        (uCalls ++ sCalls,
          .success (.obj [("ok", .bool true), ("type", .str "file"),
            ("to", .str args.toUser), ("media_id", media_id), ("msgid", msgid)]))

/-- The text branch of `main` (after the token was obtained). -/
def run_text (e : Env) (args : Args) (agent_id : Int) (tok : Json) :
    List NetCall × Outcome :=
  match send_text tok agent_id args.toUser (args.message.getD "") e.sendResp with
  | (sCalls, .exit m) => (sCalls, .exit m)
  | (sCalls, .exc m) => (sCalls, .exc m)
  | (sCalls, .ok result) =>
    match result.pyGet "msgid" (.str "") with
    | .error m => (sCalls, .exc m)
    | .ok msgid =>
      (sCalls,
        .success (.obj [("ok", .bool true), ("type", .str "text"),
          ("to", .str args.toUser), ("msgid", msgid)]))

/-- `main()`: the at-least-one-argument check, then config loading, token
acquisition, and the branch selected by `if args.image / elif args.file /
else`.  Returns the ordered list of network calls issued together with the
process outcome. -/
def main_run (e : Env) (args : Args) : List NetCall × Outcome :=
  if !(truthyOptStr args.message) && !(truthyOptStr args.image) && !(truthyOptStr args.file) then
    ([], .usage "Must provide a message, --image, or --file")
  else
    match load_config e.configFile with
    | .exit m => ([], .exit m)
    | .exc m => ([], .exc m)
    | .ok (corp_id, corp_secret, agent_id, _proxy) =>
      match get_access_token corp_id corp_secret e.tokenResp with
      | (tCalls, .exit m) => (tCalls, .exit m)
      | (tCalls, .exc m) => (tCalls, .exc m)
      | (tCalls, .ok tok) =>
        if truthyOptStr args.image then
          let (calls, out) := run_image e args agent_id tok
          (tCalls ++ calls, out)
        else if truthyOptStr args.file then
          let (calls, out) := run_file e args agent_id tok
          (tCalls ++ calls, out)
        else
          let (calls, out) := run_text e args agent_id tok
          (tCalls ++ calls, out)

/-- An outcome that terminates the process with a nonzero exit status after
printing an error message (every non-success outcome does). -/
def Outcome.isAbort : Outcome → Bool
  | .success _ => false
  | _ => true

/-! ## Concrete sample data for witnesses -/

/-- Config vars with all three credentials present. -/
def varsFull : Json :=
  .obj [("WECOM_CORP_ID", .str "cid"), ("WECOM_CORP_SECRET", .str "sec"),
        ("WECOM_AGENT_ID", .str "42"), ("WECOM_PROXY", .str "")]

/-- A complete config file. -/
def cfgFull : Json := .obj [("env", .obj [("vars", varsFull)])]

/-- Config vars lacking `WECOM_CORP_SECRET`. -/
def varsNoSecret : Json :=
  .obj [("WECOM_CORP_ID", .str "cid"), ("WECOM_AGENT_ID", .str "42")]

/-- A config file whose vars lack `WECOM_CORP_SECRET`. -/
def cfgNoSecret : Json := .obj [("env", .obj [("vars", varsNoSecret)])]

/-- A successful gettoken response. -/
def okTokenResp : Json := .obj [("errcode", .num 0), ("access_token", .str "TOK")]

/-- A successful upload response. -/
def okUploadResp : Json := .obj [("errcode", .num 0), ("media_id", .str "MID")]

/-- A successful send response. -/
def okSendResp : Json := .obj [("errcode", .num 0), ("msgid", .str "MSG")]

/-- A fully healthy environment (config complete, every file exists, every
endpoint succeeds). -/
def envOk : Env :=
  { configFile := some cfgFull, fileExists := fun _ => true,
    tokenResp := okTokenResp, uploadResp := okUploadResp, sendResp := okSendResp }

/-- Like `envOk` but the config lacks the corp secret. -/
def envNoSecret : Env := { envOk with configFile := some cfgNoSecret }

/-- A plain text invocation. -/
def argsText : Args :=
  { message := some "hello", toUser := "LiXueHeng", image := none, file := none }

/-- An image invocation. -/
def argsImage : Args :=
  { message := none, toUser := "LiXueHeng", image := some "/tmp/p.png", file := none }

/-- A file invocation. -/
def argsFile : Args :=
  { message := none, toUser := "LiXueHeng", image := none, file := some "/tmp/d.pdf" }

/-! ## Helper lemmas -/

/-- When a credential key is absent from the vars mapping (or the mapping
is not a dict at all), `load_config` terminates the process: either with
the ConfigIncomplete message or (non-dict vars) with an uncaught
exception. -/
theorem load_config_missing_key (d envv : Json)
    (henv : envVars d = .ok envv)
    (hmiss : envv.lookup "WECOM_CORP_ID" = none ∨
             envv.lookup "WECOM_CORP_SECRET" = none ∨
             envv.lookup "WECOM_AGENT_ID" = none) :
    load_config (some d) = .exit "Error: Missing WECOM_CORP_ID/CORP_SECRET/AGENT_ID in config" ∨
    ∃ m, load_config (some d) = .exc m := by
  simp only [load_config, henv]
  cases envv with
  | obj fields =>
    rcases hmiss with h | h | h <;>
      simp only [Json.lookup] at h <;>
      simp [Json.pyGet, h, Json.truthy]
  | null => simp [Json.pyGet]
  | bool b => simp [Json.pyGet]
  | num n => simp [Json.pyGet]
  | str s => simp [Json.pyGet]

/-- A successful upload response handling returns the response's
`media_id` entry. -/
theorem upload_body_ok {resp mid : Json} (h : upload_body resp = .ok mid) :
    resp.pySubscript "media_id" = .ok mid := by
  unfold upload_body at h
  split at h
  · simp at h
  · split at h
    · simp at h
    · split at h
      · simp at h
      · rename_i hsub
        cases h
        exact hsub

/-- A successful send response handling returns the parsed response
itself. -/
theorem send_body_ok {emsg : String} {resp r : Json} (h : send_body emsg resp = .ok r) :
    r = resp := by
  unfold send_body at h
  split at h
  · simp at h
  · split at h
    · simp at h
    · cases h
      rfl

/-- A successful `upload_media` run returns the value `upload_body`
extracted from the upload response. -/
theorem upload_media_ok {fs : String → Bool} {tok : Json} {p ty : String}
    {resp : Json} {uC : List NetCall} {mid : Json}
    (h : upload_media fs tok p ty resp = (uC, .ok mid)) :
    upload_body resp = .ok mid := by
  unfold upload_media at h
  split at h
  · simp at h
  · exact ((Prod.mk.injEq _ _ _ _).mp h).2

/-- Anatomy of a successful image branch: the upload response yielded a
media id, the send response was accepted, and the printed line is the
image result object. -/
theorem run_image_success {e : Env} {args : Args} {aid : Int} {tok : Json}
    {calls : List NetCall} {line : Json}
    (h : run_image e args aid tok = (calls, .success line)) :
    ∃ mid msgid, upload_body e.uploadResp = .ok mid ∧
      e.sendResp.pyGet "msgid" (.str "") = .ok msgid ∧
      line = .obj [("ok", .bool true), ("type", .str "image"),
                   ("to", .str args.toUser), ("media_id", mid), ("msgid", msgid)] := by
  unfold run_image at h
  split at h
  · simp at h
  · simp at h
  · rename_i uC mid hup
    split at h
    · simp at h
    · simp at h
    · rename_i sC result hsend
      have hres : result = e.sendResp :=
        send_body_ok ((Prod.mk.injEq _ _ _ _).mp hsend).2
      split at h
      · simp at h
      · rename_i msgid hmsgid
        obtain ⟨-, hline⟩ := (Prod.mk.injEq _ _ _ _).mp h
        cases hline
        exact ⟨mid, msgid, upload_media_ok hup, hres ▸ hmsgid, rfl⟩

/-- Anatomy of a successful file branch. -/
theorem run_file_success {e : Env} {args : Args} {aid : Int} {tok : Json}
    {calls : List NetCall} {line : Json}
    (h : run_file e args aid tok = (calls, .success line)) :
    ∃ mid msgid, upload_body e.uploadResp = .ok mid ∧
      e.sendResp.pyGet "msgid" (.str "") = .ok msgid ∧
      line = .obj [("ok", .bool true), ("type", .str "file"),
                   ("to", .str args.toUser), ("media_id", mid), ("msgid", msgid)] := by
  unfold run_file at h
  split at h
  · simp at h
  · simp at h
  · rename_i uC mid hup
    split at h
    · simp at h
    · simp at h
    · rename_i sC result hsend
      have hres : result = e.sendResp :=
        send_body_ok ((Prod.mk.injEq _ _ _ _).mp hsend).2
      split at h
      · simp at h
      · rename_i msgid hmsgid
        obtain ⟨-, hline⟩ := (Prod.mk.injEq _ _ _ _).mp h
        cases hline
        exact ⟨mid, msgid, upload_media_ok hup, hres ▸ hmsgid, rfl⟩

/-- Anatomy of a successful text branch: no `media_id` entry is printed. -/
theorem run_text_success {e : Env} {args : Args} {aid : Int} {tok : Json}
    {calls : List NetCall} {line : Json}
    (h : run_text e args aid tok = (calls, .success line)) :
    ∃ msgid, e.sendResp.pyGet "msgid" (.str "") = .ok msgid ∧
      line = .obj [("ok", .bool true), ("type", .str "text"),
                   ("to", .str args.toUser), ("msgid", msgid)] := by
  unfold run_text at h
  split at h
  · simp at h
  · simp at h
  · rename_i sC result hsend
    have hres : result = e.sendResp :=
      send_body_ok ((Prod.mk.injEq _ _ _ _).mp hsend).2
    split at h
    · simp at h
    · rename_i msgid hmsgid
      obtain ⟨-, hline⟩ := (Prod.mk.injEq _ _ _ _).mp h
      cases hline
      exact ⟨msgid, hres ▸ hmsgid, rfl⟩

/-- Anatomy of every successful run of `main`: the printed line is exactly
the result object of the branch selected by the image/file/text precedence,
`msgid` is read from the send response (defaulting to the empty string) and
`media_id`, present exactly for image/file, is the value the upload step
returned. -/
theorem main_run_success_shape {e : Env} {args : Args}
    {calls : List NetCall} {line : Json}
    (h : main_run e args = (calls, .success line)) :
    ∃ msgid, e.sendResp.pyGet "msgid" (.str "") = .ok msgid ∧
      ((truthyOptStr args.image = true ∧
         ∃ mid, upload_body e.uploadResp = .ok mid ∧
           line = .obj [("ok", .bool true), ("type", .str "image"),
                        ("to", .str args.toUser), ("media_id", mid), ("msgid", msgid)]) ∨
       (truthyOptStr args.image = false ∧ truthyOptStr args.file = true ∧
         ∃ mid, upload_body e.uploadResp = .ok mid ∧
           line = .obj [("ok", .bool true), ("type", .str "file"),
                        ("to", .str args.toUser), ("media_id", mid), ("msgid", msgid)]) ∨
       (truthyOptStr args.image = false ∧ truthyOptStr args.file = false ∧
           line = .obj [("ok", .bool true), ("type", .str "text"),
                        ("to", .str args.toUser), ("msgid", msgid)])) := by
  unfold main_run at h
  split at h
  · simp at h
  · split at h
    · simp at h
    · simp at h
    · split at h
      · simp at h
      · simp at h
      · rename_i tC tok htok
        split at h
        · rename_i himg
          obtain ⟨-, hout⟩ := (Prod.mk.injEq _ _ _ _).mp h
          obtain ⟨mid, msgid, hub, hmsgid, hline⟩ :=
            run_image_success (Prod.ext rfl hout)
          exact ⟨msgid, hmsgid, Or.inl ⟨himg, mid, hub, hline⟩⟩
        · split at h
          · rename_i himg hfile
            obtain ⟨-, hout⟩ := (Prod.mk.injEq _ _ _ _).mp h
            obtain ⟨mid, msgid, hub, hmsgid, hline⟩ :=
              run_file_success (Prod.ext rfl hout)
            exact ⟨msgid, hmsgid,
              Or.inr (Or.inl ⟨Bool.not_eq_true _ ▸ himg, hfile, mid, hub, hline⟩)⟩
          · rename_i himg hfile
            obtain ⟨-, hout⟩ := (Prod.mk.injEq _ _ _ _).mp h
            obtain ⟨msgid, hmsgid, hline⟩ := run_text_success (Prod.ext rfl hout)
            exact ⟨msgid, hmsgid,
              Or.inr (Or.inr ⟨Bool.not_eq_true _ ▸ himg, Bool.not_eq_true _ ▸ hfile, hline⟩)⟩

/-! ## Claims -/

/-- C1: for every configuration file in which any of the required credential
fields `WECOM_CORP_ID`, `WECOM_CORP_SECRET`, `WECOM_AGENT_ID` is absent,
`main` aborts with a nonzero exit and an error message before making any
network call: the list of issued calls is empty and the outcome is a
non-success termination. -/
theorem missing_credential_aborts_before_network
    (e : Env) (args : Args) (d envv : Json)
    (hd : e.configFile = some d)
    (henv : envVars d = .ok envv)
    (hmiss : envv.lookup "WECOM_CORP_ID" = none ∨
             envv.lookup "WECOM_CORP_SECRET" = none ∨
             envv.lookup "WECOM_AGENT_ID" = none) :
    (main_run e args).1 = [] ∧ (main_run e args).2.isAbort = true := by
  have habort := load_config_missing_key d envv henv hmiss
  unfold main_run
  rw [hd]
  by_cases hc : (!(truthyOptStr args.message) && !(truthyOptStr args.image) &&
      !(truthyOptStr args.file)) = true
  · simp [hc, Outcome.isAbort]
  · rcases habort with h | ⟨m, h⟩ <;> simp [hc, h, Outcome.isAbort]

/-- Witness for C1: a concrete config lacking `WECOM_CORP_SECRET` makes the
dispatcher abort with no network call issued. -/
theorem missing_credential_aborts_before_network_witness :
    envNoSecret.configFile = some cfgNoSecret ∧
    envVars cfgNoSecret = .ok varsNoSecret ∧
    varsNoSecret.lookup "WECOM_CORP_SECRET" = none ∧
    ((main_run envNoSecret argsText).1 = [] ∧
     (main_run envNoSecret argsText).2.isAbort = true) :=
  ⟨rfl, rfl, rfl,
    missing_credential_aborts_before_network envNoSecret argsText cfgNoSecret varsNoSecret
      rfl rfl (Or.inr (Or.inl rfl))⟩

/-- C2: when the requested image or file attachment path does not resolve to
an existing file, the run aborts after the token-exchange call was issued
and before any upload call: the trace is exactly the one token call and the
outcome is the FileNotFound exit. -/
theorem missing_attachment_aborts_after_token_before_upload
    (e : Env) (args : Args) (cid csec pr tok : Json) (aid : Int)
    (hcfg : load_config e.configFile = .ok (cid, csec, aid, pr))
    (htok : get_access_token cid csec e.tokenResp = ([.token cid csec], .ok tok)) :
    (∀ p, args.image = some p → (!(p == "")) = true → e.fileExists p = false →
        main_run e args = ([.token cid csec], .exit ("Error: File not found: " ++ p))) ∧
    (∀ p, truthyOptStr args.image = false → args.file = some p → (!(p == "")) = true →
        e.fileExists p = false →
        main_run e args = ([.token cid csec], .exit ("Error: File not found: " ++ p))) := by
  constructor
  · intro p himg hp hfs
    have ht : truthyOptStr (some p) = true := by simp [truthyOptStr, hp]
    simp [main_run, hcfg, htok, run_image, upload_media, himg, hfs, ht]
  · intro p himg hf hp hfs
    have ht : truthyOptStr (some p) = true := by simp [truthyOptStr, hp]
    simp [main_run, hcfg, htok, himg, run_file, upload_media, hf, hfs, ht]

/-- Witness for C2: with a complete config, a healthy token endpoint and a
filesystem on which no path exists, an image invocation issues exactly the
token call and exits with the FileNotFound message. -/
theorem missing_attachment_aborts_witness :
    load_config (some cfgFull) = .ok (.str "cid", .str "sec", 42, .str "") ∧
    ((main_run { envOk with fileExists := fun _ => false } argsImage) =
      ([.token (.str "cid") (.str "sec")],
        .exit ("Error: File not found: " ++ "/tmp/p.png"))) :=
  ⟨rfl,
    (missing_attachment_aborts_after_token_before_upload
      { envOk with fileExists := fun _ => false } argsImage
      (.str "cid") (.str "sec") (.str "") (.str "TOK") 42 rfl rfl).1
      "/tmp/p.png" rfl rfl rfl⟩

/-- C3: a vendor response with a nonzero `errcode` at any stage (token
exchange, media upload, message send — the latter two for each message
type that reaches them) aborts the run at exactly that stage: the trace
ends with that stage's call, no later call is issued, and the exit message
embeds the Python rendering of the raw parsed response. -/
theorem nonzero_errcode_aborts_stage
    (e : Env) (args : Args) (cid csec pr : Json) (aid : Int)
    (hcfg : load_config e.configFile = .ok (cid, csec, aid, pr)) :
    (∀ ec, (truthyOptStr args.message = true ∨ truthyOptStr args.image = true ∨
        truthyOptStr args.file = true) →
      e.tokenResp.pyGet "errcode" (.num 0) = .ok ec → pyEqInt ec 0 = false →
      main_run e args = ([.token cid csec],
        .exit ("Error getting token: " ++ e.tokenResp.pyRepr))) ∧
    (∀ tok p ec, args.image = some p → (!(p == "")) = true → e.fileExists p = true →
      get_access_token cid csec e.tokenResp = ([.token cid csec], .ok tok) →
      e.uploadResp.pyGet "errcode" (.num 0) = .ok ec → pyEqInt ec 0 = false →
      main_run e args = ([.token cid csec, .upload tok p "image"],
        .exit ("Error uploading media: " ++ e.uploadResp.pyRepr))) ∧
    (∀ tok p ec, truthyOptStr args.image = false → args.file = some p →
      (!(p == "")) = true → e.fileExists p = true →
      get_access_token cid csec e.tokenResp = ([.token cid csec], .ok tok) →
      e.uploadResp.pyGet "errcode" (.num 0) = .ok ec → pyEqInt ec 0 = false →
      main_run e args = ([.token cid csec, .upload tok p "file"],
        .exit ("Error uploading media: " ++ e.uploadResp.pyRepr))) ∧
    (∀ tok m ec, args.message = some m → (!(m == "")) = true →
      truthyOptStr args.image = false → truthyOptStr args.file = false →
      get_access_token cid csec e.tokenResp = ([.token cid csec], .ok tok) →
      e.sendResp.pyGet "errcode" (.num 0) = .ok ec → pyEqInt ec 0 = false →
      main_run e args = ([.token cid csec,
          .send tok (send_text_payload aid args.toUser m)],
        .exit ("Error sending message: " ++ e.sendResp.pyRepr))) ∧
    (∀ tok p mid ec, args.image = some p → (!(p == "")) = true →
      get_access_token cid csec e.tokenResp = ([.token cid csec], .ok tok) →
      upload_media e.fileExists tok p "image" e.uploadResp =
        ([.upload tok p "image"], .ok mid) →
      e.sendResp.pyGet "errcode" (.num 0) = .ok ec → pyEqInt ec 0 = false →
      main_run e args = ([.token cid csec, .upload tok p "image",
          .send tok (send_image_payload aid args.toUser mid)],
        .exit ("Error sending image: " ++ e.sendResp.pyRepr))) ∧
    (∀ tok p mid ec, truthyOptStr args.image = false → args.file = some p →
      (!(p == "")) = true →
      get_access_token cid csec e.tokenResp = ([.token cid csec], .ok tok) →
      upload_media e.fileExists tok p "file" e.uploadResp =
        ([.upload tok p "file"], .ok mid) →
      e.sendResp.pyGet "errcode" (.num 0) = .ok ec → pyEqInt ec 0 = false →
      main_run e args = ([.token cid csec, .upload tok p "file",
          .send tok (send_file_payload aid args.toUser mid)],
        .exit ("Error sending file: " ++ e.sendResp.pyRepr))) := by
  refine ⟨?_, ?_, ?_, ?_, ?_, ?_⟩
  · intro ec hargs herr hne
    rcases hargs with hm | hm | hm <;>
      simp [main_run, hcfg, get_access_token, token_body, herr, hne, hm]
  · intro tok p ec himg hp hfs htok herr hne
    have ht : truthyOptStr (some p) = true := by simp [truthyOptStr, hp]
    simp [main_run, hcfg, htok, himg, ht, run_image, upload_media, upload_body, hfs, herr, hne]
  · intro tok p ec himg hf hp hfs htok herr hne
    have ht : truthyOptStr (some p) = true := by simp [truthyOptStr, hp]
    simp [main_run, hcfg, htok, himg, hf, ht, run_file, upload_media, upload_body, hfs, herr, hne]
  · intro tok m ec hmsg hm himg hfile htok herr hne
    have ht : truthyOptStr (some m) = true := by simp [truthyOptStr, hm]
    simp [main_run, hcfg, htok, hmsg, ht, himg, hfile, run_text, send_text, send_body, herr, hne]
  · intro tok p mid ec himg hp htok hup herr hne
    have ht : truthyOptStr (some p) = true := by simp [truthyOptStr, hp]
    simp [main_run, hcfg, htok, himg, ht, run_image, hup, send_image, send_body, herr, hne]
  · intro tok p mid ec himg hf hp htok hup herr hne
    have ht : truthyOptStr (some p) = true := by simp [truthyOptStr, hp]
    simp [main_run, hcfg, htok, himg, hf, ht, run_file, hup, send_file, send_body, herr, hne]

/-- Witness for C3: a vendor error 40013 at the token stage (text
invocation), at the upload stage and at the send stage (image invocations)
each abort at that stage with the raw response embedded in the message. -/
theorem nonzero_errcode_aborts_stage_witness :
    (main_run { envOk with tokenResp := .obj [("errcode", .num 40013)] } argsText =
      ([.token (.str "cid") (.str "sec")],
        .exit ("Error getting token: " ++ (Json.obj [("errcode", .num 40013)]).pyRepr))) ∧
    (main_run { envOk with uploadResp := .obj [("errcode", .num 41005)] } argsImage =
      ([.token (.str "cid") (.str "sec"), .upload (.str "TOK") "/tmp/p.png" "image"],
        .exit ("Error uploading media: " ++ (Json.obj [("errcode", .num 41005)]).pyRepr))) ∧
    (main_run { envOk with sendResp := .obj [("errcode", .num 81013)] } argsImage =
      ([.token (.str "cid") (.str "sec"), .upload (.str "TOK") "/tmp/p.png" "image",
          .send (.str "TOK") (send_image_payload 42 "LiXueHeng" (.str "MID"))],
        .exit ("Error sending image: " ++ (Json.obj [("errcode", .num 81013)]).pyRepr))) :=
  ⟨(nonzero_errcode_aborts_stage { envOk with tokenResp := .obj [("errcode", .num 40013)] }
      argsText (.str "cid") (.str "sec") (.str "") 42 rfl).1
      (.num 40013) (Or.inl rfl) rfl rfl,
   ((nonzero_errcode_aborts_stage { envOk with uploadResp := .obj [("errcode", .num 41005)] }
      argsImage (.str "cid") (.str "sec") (.str "") 42 rfl).2.1
      (.str "TOK") "/tmp/p.png" (.num 41005) rfl rfl rfl rfl rfl rfl),
   ((nonzero_errcode_aborts_stage { envOk with sendResp := .obj [("errcode", .num 81013)] }
      argsImage (.str "cid") (.str "sec") (.str "") 42 rfl).2.2.2.2.1
      (.str "TOK") "/tmp/p.png" (.str "MID") (.num 81013) rfl rfl rfl rfl rfl rfl)⟩

/-- C4: for every message string the constructed text payload contains
`msgtype == "text"` and `text.content` equal to the original string; for
every media id value the image payload contains `image.media_id` and the
file payload contains `file.media_id` equal to that value (which is what
`main` passes through from the upload step's return). -/
theorem payload_contains_original_content :
    (∀ (aid : Int) (toUser msg : String),
      (send_text_payload aid toUser msg).lookup "msgtype" = some (.str "text") ∧
      ((send_text_payload aid toUser msg).lookup "text").bind
        (fun j => j.lookup "content") = some (.str msg)) ∧
    (∀ (aid : Int) (toUser : String) (mid : Json),
      (send_image_payload aid toUser mid).lookup "msgtype" = some (.str "image") ∧
      ((send_image_payload aid toUser mid).lookup "image").bind
        (fun j => j.lookup "media_id") = some mid) ∧
    (∀ (aid : Int) (toUser : String) (mid : Json),
      (send_file_payload aid toUser mid).lookup "msgtype" = some (.str "file") ∧
      ((send_file_payload aid toUser mid).lookup "file").bind
        (fun j => j.lookup "media_id") = some mid) :=
  ⟨fun _ _ _ => ⟨rfl, rfl⟩, fun _ _ _ => ⟨rfl, rfl⟩, fun _ _ _ => ⟨rfl, rfl⟩⟩

/-- A successful `get` forces the receiver to be a dict and returns the
looked-up value with the default filled in. -/
theorem pyGet_ok {j : Json} {k : String} {d v : Json} (h : j.pyGet k d = .ok v) :
    (j.lookup k).getD d = v := by
  cases j with
  | obj fields =>
    simp only [Json.pyGet] at h
    cases h
    rfl
  | null => simp [Json.pyGet] at h
  | bool b => simp [Json.pyGet] at h
  | num n => simp [Json.pyGet] at h
  | str s => simp [Json.pyGet] at h

/-- C5: on every successful dispatch the process exits 0 and prints exactly
one JSON line (`Outcome.success line` models exit status 0 with `line` the
single printed object), shaped `ok/type/to/msgid` with a `media_id` entry
present exactly for image and file messages and omitted for text; under the
vendor protocol typing (`media_id`, and `msgid` when present, are strings)
every data entry is a string. -/
theorem success_output_shape
    (e : Env) (args : Args) (calls : List NetCall) (line : Json)
    (h : main_run e args = (calls, .success line))
    (hmid : ∀ j, upload_body e.uploadResp = .ok j → ∃ s, j = .str s)
    (hmsg : ∀ j, e.sendResp.lookup "msgid" = some j → ∃ s, j = .str s) :
    ∃ ms : String,
      ((truthyOptStr args.image = false ∧ truthyOptStr args.file = false ∧
        line = .obj [("ok", .bool true), ("type", .str "text"),
                     ("to", .str args.toUser), ("msgid", .str ms)]) ∨
       (∃ (ty mid : String), (ty = "image" ∨ ty = "file") ∧
        line = .obj [("ok", .bool true), ("type", .str ty),
                     ("to", .str args.toUser), ("media_id", .str mid),
                     ("msgid", .str ms)])) := by
  obtain ⟨msgid, hmsgid, hcases⟩ := main_run_success_shape h
  have hmv : (e.sendResp.lookup "msgid").getD (.str "") = msgid := pyGet_ok hmsgid
  have hms : ∃ s, msgid = .str s := by
    cases hL : e.sendResp.lookup "msgid" with
    | none => exact ⟨"", by rw [← hmv, hL]; rfl⟩
    | some j =>
      obtain ⟨s, rfl⟩ := hmsg j hL
      exact ⟨s, by rw [← hmv, hL]; rfl⟩
  obtain ⟨ms, rfl⟩ := hms
  rcases hcases with ⟨himg, mid, hub, hline⟩ | ⟨himg, hfile, mid, hub, hline⟩ |
    ⟨himg, hfile, hline⟩
  · obtain ⟨s, rfl⟩ := hmid mid hub
    exact ⟨ms, Or.inr ⟨"image", s, Or.inl rfl, hline⟩⟩
  · obtain ⟨s, rfl⟩ := hmid mid hub
    exact ⟨ms, Or.inr ⟨"file", s, Or.inr rfl, hline⟩⟩
  · exact ⟨ms, Or.inl ⟨himg, hfile, hline⟩⟩

/-- Witness for C5: a healthy end-to-end text dispatch and a healthy image
dispatch, with the concrete printed lines, satisfy the shape theorem. -/
theorem success_output_shape_witness :
    (main_run envOk argsText = ([.token (.str "cid") (.str "sec"),
        .send (.str "TOK") (send_text_payload 42 "LiXueHeng" "hello")],
      .success (.obj [("ok", .bool true), ("type", .str "text"),
        ("to", .str "LiXueHeng"), ("msgid", .str "MSG")]))) ∧
    (∃ ms : String,
      ((truthyOptStr argsText.image = false ∧ truthyOptStr argsText.file = false ∧
        (Json.obj [("ok", .bool true), ("type", .str "text"),
          ("to", .str "LiXueHeng"), ("msgid", .str "MSG")]) =
          .obj [("ok", .bool true), ("type", .str "text"),
                ("to", .str argsText.toUser), ("msgid", .str ms)]) ∨
       (∃ (ty mid : String), (ty = "image" ∨ ty = "file") ∧
        (Json.obj [("ok", .bool true), ("type", .str "text"),
          ("to", .str "LiXueHeng"), ("msgid", .str "MSG")]) =
          .obj [("ok", .bool true), ("type", .str ty),
                ("to", .str argsText.toUser), ("media_id", .str mid),
                ("msgid", .str ms)]))) :=
  ⟨rfl,
    success_output_shape envOk argsText _ _ rfl
      (fun _ h => ⟨"MID", by injection h with h2; exact h2.symm⟩)
      (fun _ h => ⟨"MSG", by injection h with h2; exact h2.symm⟩)⟩

/-- C9: when the send response has no `msgid` field, a successful run still
prints a `msgid` entry whose value is the empty string. -/
theorem absent_msgid_prints_empty
    (e : Env) (args : Args) (calls : List NetCall) (line : Json)
    (h : main_run e args = (calls, .success line))
    (habs : e.sendResp.lookup "msgid" = none) :
    line.lookup "msgid" = some (.str "") := by
  obtain ⟨msgid, hmsgid, hcases⟩ := main_run_success_shape h
  have hmv : (e.sendResp.lookup "msgid").getD (.str "") = msgid := pyGet_ok hmsgid
  rw [habs] at hmv
  have hempty : msgid = .str "" := by simpa using hmv.symm
  subst hempty
  rcases hcases with ⟨-, mid, -, hline⟩ | ⟨-, -, mid, -, hline⟩ | ⟨-, -, hline⟩ <;>
    subst hline <;> rfl

/-- Witness for C9: a send response carrying only `errcode` still yields a
printed line with `"msgid": ""`. -/
theorem absent_msgid_prints_empty_witness :
    (main_run { envOk with sendResp := .obj [("errcode", .num 0)] } argsText =
      ([.token (.str "cid") (.str "sec"),
        .send (.str "TOK") (send_text_payload 42 "LiXueHeng" "hello")],
      .success (.obj [("ok", .bool true), ("type", .str "text"),
        ("to", .str "LiXueHeng"), ("msgid", .str "")]))) ∧
    (Json.obj [("ok", .bool true), ("type", .str "text"),
        ("to", .str "LiXueHeng"), ("msgid", .str "")]).lookup "msgid" =
      some (.str "") :=
  ⟨rfl,
    absent_msgid_prints_empty { envOk with sendResp := .obj [("errcode", .num 0)] }
      argsText _ _ rfl rfl⟩

/-- C6: when several of the positional message, `--image` and `--file` are
supplied, exactly one message type is selected by the fixed precedence
image, then file, then text: replacing the unselected arguments changes
nothing observable (neither the calls issued nor the outcome), and on
success the printed `type` names the selected branch. -/
theorem argument_precedence (e : Env) (args : Args) :
    (truthyOptStr args.image = true →
      (∀ m f, main_run e { args with message := m, file := f } = main_run e args) ∧
      (∀ calls line, main_run e args = (calls, .success line) →
        line.lookup "type" = some (.str "image"))) ∧
    (truthyOptStr args.image = false → truthyOptStr args.file = true →
      (∀ m, main_run e { args with message := m } = main_run e args) ∧
      (∀ calls line, main_run e args = (calls, .success line) →
        line.lookup "type" = some (.str "file"))) ∧
    (truthyOptStr args.image = false → truthyOptStr args.file = false →
      (∀ calls line, main_run e args = (calls, .success line) →
        line.lookup "type" = some (.str "text"))) := by
  refine ⟨fun himg => ⟨fun m f => ?_, fun calls line h => ?_⟩,
    fun himg hfile => ⟨fun m => ?_, fun calls line h => ?_⟩,
    fun himg hfile calls line h => ?_⟩
  · simp [main_run, himg, run_image]
  · obtain ⟨msgid, -, hc⟩ := main_run_success_shape h
    rcases hc with ⟨-, mid, -, hline⟩ | ⟨hf, -⟩ | ⟨hf, -⟩
    · subst hline; rfl
    · simp [himg] at hf
    · simp [himg] at hf
  · simp [main_run, himg, hfile, run_file]
  · obtain ⟨msgid, -, hc⟩ := main_run_success_shape h
    rcases hc with ⟨hf, -⟩ | ⟨-, -, mid, -, hline⟩ | ⟨-, hf, -⟩
    · simp [himg] at hf
    · subst hline; rfl
    · simp [hfile] at hf
  · obtain ⟨msgid, -, hc⟩ := main_run_success_shape h
    rcases hc with ⟨hf, -⟩ | ⟨-, hf, -⟩ | ⟨-, -, hline⟩
    · simp [himg] at hf
    · simp [hfile] at hf
    · subst hline; rfl

/-- Witness for C6: with both `--image` and a positional message supplied,
dropping the message (and the file flag) leaves the run unchanged, and the
successful run prints type `image`. -/
theorem argument_precedence_witness :
    (main_run envOk { argsImage with message := some "ignored", file := some "/tmp/x" } =
      main_run envOk argsImage) ∧
    (main_run envOk { argsImage with message := some "ignored", file := some "/tmp/x" } =
      ([.token (.str "cid") (.str "sec"), .upload (.str "TOK") "/tmp/p.png" "image",
        .send (.str "TOK") (send_image_payload 42 "LiXueHeng" (.str "MID"))],
       .success (.obj [("ok", .bool true), ("type", .str "image"),
         ("to", .str "LiXueHeng"), ("media_id", .str "MID"), ("msgid", .str "MSG")]))) ∧
    (Json.obj [("ok", .bool true), ("type", .str "image"), ("to", .str "LiXueHeng"),
      ("media_id", .str "MID"), ("msgid", .str "MSG")]).lookup "type" =
        some (.str "image") :=
  ⟨(argument_precedence envOk
      { argsImage with message := some "ignored", file := some "/tmp/x" }).1 rfl |>.1
      none none,
   rfl,
   (argument_precedence envOk argsImage).1 rfl |>.2 _ _ rfl⟩

/-- C7: a missing `--to` defaults the recipient to the fixed user id
`LiXueHeng`; and two send payloads of the same kind built for the same
message body but different recipients agree on every field other than
`touser`, whose value is the respective recipient. -/
theorem recipient_default_and_touser_frame :
    (∀ c : CliArgs, c.toOpt = none → (parse_args c).toUser = "LiXueHeng") ∧
    (∀ (aid : Int) (t1 t2 msg : String),
      (send_text_payload aid t1 msg).lookup "touser" = some (.str t1) ∧
      ∀ k, ¬(k = "touser") →
        (send_text_payload aid t1 msg).lookup k = (send_text_payload aid t2 msg).lookup k) ∧
    (∀ (aid : Int) (t1 t2 : String) (mid : Json),
      (send_image_payload aid t1 mid).lookup "touser" = some (.str t1) ∧
      ∀ k, ¬(k = "touser") →
        (send_image_payload aid t1 mid).lookup k = (send_image_payload aid t2 mid).lookup k) ∧
    (∀ (aid : Int) (t1 t2 : String) (mid : Json),
      (send_file_payload aid t1 mid).lookup "touser" = some (.str t1) ∧
      ∀ k, ¬(k = "touser") →
        (send_file_payload aid t1 mid).lookup k = (send_file_payload aid t2 mid).lookup k) := by
  refine ⟨fun c hc => ?_, fun aid t1 t2 msg => ⟨rfl, fun k hk => ?_⟩,
    fun aid t1 t2 mid => ⟨rfl, fun k hk => ?_⟩,
    fun aid t1 t2 mid => ⟨rfl, fun k hk => ?_⟩⟩
  · simp [parse_args, hc, defaultTo]
  all_goals
    have hk2 : ¬("touser" = k) := fun hh => hk hh.symm
    simp [send_text_payload, send_image_payload, send_file_payload,
      Json.lookup, assoc, hk2]

/-- Witness for C7: an omitted `--to` resolves to `LiXueHeng`, and the text
payloads for recipients `LiXueHeng` and `@all` agree on the `safe` field. -/
theorem recipient_default_and_touser_frame_witness :
    (parse_args { message := some "hi", toOpt := none, image := none,
                  file := none }).toUser = "LiXueHeng" ∧
    ((send_text_payload 42 "LiXueHeng" "hi").lookup "touser" =
      some (.str "LiXueHeng") ∧
     (send_text_payload 42 "LiXueHeng" "hi").lookup "safe" =
      (send_text_payload 42 "@all" "hi").lookup "safe") :=
  ⟨recipient_default_and_touser_frame.1
      { message := some "hi", toOpt := none, image := none, file := none } rfl,
   (recipient_default_and_touser_frame.2.1 42 "LiXueHeng" "@all" "hi").1,
   (recipient_default_and_touser_frame.2.1 42 "LiXueHeng" "@all" "hi").2 "safe"
     (by decide)⟩

/-- C8: a vendor response without any `errcode` field is treated as success
at every stage — `data.get("errcode", 0)` defaults to `0` — so the token
handler returns the access token, the upload handler returns the media id,
and the send handler (for each of the three kinds, selected by `emsg`)
returns the response instead of aborting. -/
theorem absent_errcode_is_success :
    (∀ (fields : List (String × Json)) (tokv : Json),
      assoc fields "errcode" = none → assoc fields "access_token" = some tokv →
      token_body (.obj fields) = .ok tokv) ∧
    (∀ (fields : List (String × Json)) (midv : Json),
      assoc fields "errcode" = none → assoc fields "media_id" = some midv →
      upload_body (.obj fields) = .ok midv) ∧
    (∀ (emsg : String) (fields : List (String × Json)),
      assoc fields "errcode" = none →
      send_body emsg (.obj fields) = .ok (.obj fields)) := by
  refine ⟨fun fields tokv habs hval => ?_, fun fields midv habs hval => ?_,
    fun emsg fields habs => ?_⟩ <;>
    simp [token_body, upload_body, send_body, Json.pyGet, Json.pySubscript,
      habs, pyEqInt]
  · simp [hval]
  · simp [hval]

/-- Witness for C8: responses carrying no `errcode` at all make every stage
succeed. -/
theorem absent_errcode_is_success_witness :
    (assoc [("access_token", Json.str "T")] "errcode" = none ∧
     token_body (.obj [("access_token", .str "T")]) = .ok (.str "T")) ∧
    (upload_body (.obj [("media_id", .str "M")]) = .ok (.str "M")) ∧
    (send_body "Error sending message: " (.obj [("msgid", .str "id9")]) =
      .ok (.obj [("msgid", .str "id9")])) :=
  ⟨⟨rfl, absent_errcode_is_success.1 [("access_token", .str "T")] (.str "T") rfl rfl⟩,
   absent_errcode_is_success.2.1 [("media_id", .str "M")] (.str "M") rfl rfl,
   absent_errcode_is_success.2.2 "Error sending message: " [("msgid", .str "id9")] rfl⟩

/-- C10: a present, truthy `WECOM_AGENT_ID` string that is not a valid
decimal literal makes `load_config` die with an uncaught `ValueError` from
`int(...)` rather than the ConfigIncomplete exit (provided the other two
credentials are truthy, since the `all(...)` check runs first); and a
present but falsy value (such as the empty string) is treated exactly like
an absent credential by that check. -/
theorem agent_id_conversion
    (d envv : Json) (henv : envVars d = .ok envv) :
    (∀ (corp sec : Json) (s : String),
      envv.lookup "WECOM_CORP_ID" = some corp → corp.truthy = true →
      envv.lookup "WECOM_CORP_SECRET" = some sec → sec.truthy = true →
      envv.lookup "WECOM_AGENT_ID" = some (.str s) → (!(s == "")) = true →
      parsePyInt s = none →
      load_config (some d) =
        .exc ("ValueError: invalid literal for int() with base 10: " ++ s)) ∧
    (∀ v : Json,
      envv.lookup "WECOM_AGENT_ID" = some v → v.truthy = false →
      load_config (some d) =
        .exit "Error: Missing WECOM_CORP_ID/CORP_SECRET/AGENT_ID in config") := by
  constructor
  · intro corp sec s hcorp hct hsec hst hag hs hparse
    cases envv with
    | obj fields =>
      simp only [Json.lookup] at hcorp hsec hag
      have hat : (Json.str s).truthy = true := by simp [Json.truthy, hs]
      simp [load_config, henv, Json.pyGet, hcorp, hsec, hag, hct, hst,
        hat, pyInt, hparse]
    | null => simp [Json.lookup] at hag
    | bool b => simp [Json.lookup] at hag
    | num n => simp [Json.lookup] at hag
    | str s2 => simp [Json.lookup] at hag
  · intro v hag hv
    cases envv with
    | obj fields =>
      simp only [Json.lookup] at hag
      simp [load_config, henv, Json.pyGet, hag, hv]
    | null => simp [Json.lookup] at hag
    | bool b => simp [Json.lookup] at hag
    | num n => simp [Json.lookup] at hag
    | str s2 => simp [Json.lookup] at hag

/-- Witness for C10: `WECOM_AGENT_ID = "abc"` dies with the ValueError
message, and `WECOM_AGENT_ID = ""` exits with the ConfigIncomplete
message. -/
theorem agent_id_conversion_witness :
    (load_config (some (.obj [("env", .obj [("vars", .obj
        [("WECOM_CORP_ID", .str "cid"), ("WECOM_CORP_SECRET", .str "sec"),
         ("WECOM_AGENT_ID", .str "abc")])])])) =
      .exc ("ValueError: invalid literal for int() with base 10: " ++ "abc")) ∧
    (load_config (some (.obj [("env", .obj [("vars", .obj
        [("WECOM_CORP_ID", .str "cid"), ("WECOM_CORP_SECRET", .str "sec"),
         ("WECOM_AGENT_ID", .str "")])])])) =
      .exit "Error: Missing WECOM_CORP_ID/CORP_SECRET/AGENT_ID in config") :=
  ⟨(agent_id_conversion (.obj [("env", .obj [("vars", .obj
        [("WECOM_CORP_ID", .str "cid"), ("WECOM_CORP_SECRET", .str "sec"),
         ("WECOM_AGENT_ID", .str "abc")])])])
      (.obj [("WECOM_CORP_ID", .str "cid"), ("WECOM_CORP_SECRET", .str "sec"),
         ("WECOM_AGENT_ID", .str "abc")]) rfl).1
      (.str "cid") (.str "sec") "abc" rfl rfl rfl rfl rfl rfl rfl,
   (agent_id_conversion (.obj [("env", .obj [("vars", .obj
        [("WECOM_CORP_ID", .str "cid"), ("WECOM_CORP_SECRET", .str "sec"),
         ("WECOM_AGENT_ID", .str "")])])])
      (.obj [("WECOM_CORP_ID", .str "cid"), ("WECOM_CORP_SECRET", .str "sec"),
         ("WECOM_AGENT_ID", .str "")]) rfl).2
      (.str "") rfl rfl⟩

end WecomNotify
